import Mathlib

/-!
Verification of the go-ios test-session orchestration layer.

The development shallowly embeds three parts of the repository:
* `startTestRunner12` (ios/testmanagerd/xcuitestrunner_12.go): building the
  environment, argument and option mappings passed to the process supervisor.
* `RunXUITestWithBundleIdsXcode12Ctx` (same file): the session orchestration
  pipeline, modelled as a function from an oracle environment (outcomes of the
  external collaborator calls) to the trace of observable events and the
  returned value.
* The device-condition REST handlers (`EnableDeviceCondition`,
  `DisableDeviceCondition`) and their global device-condition table.
-/

namespace GoIos

/-! ## Splitting environment entries

`strings.Split(entry, "=")` from the Go standard library, specialised to the
separator `"="`: the string is cut at every occurrence of the separator. -/

/-- Go `strings.Split(s, "=")` on the character list of `s`: cut at every
occurrence of the character. `splitEq l` is never empty. -/
def splitEq : List Char → List (List Char)
  | [] => [[]]
  | c :: cs =>
    match splitEq cs with
    | [] => [[]]
    | f :: r => if c = '=' then [] :: f :: r else (c :: f) :: r

/-- Go `strings.Split(s, "=")` on strings. -/
def goSplitEq (s : String) : List String := (splitEq s.data).map String.mk

/-- Whether a character list contains the character that the entry split cuts
at. -/
def containsEq : List Char → Bool
  | [] => false
  | c :: cs => if c = '=' then true else containsEq cs

/-- Whether a string contains the character that the entry split cuts at. -/
def strContainsEq (s : String) : Bool := containsEq s.data

/-- Parsing one caller-supplied environment entry, mirroring
`entry := strings.Split(entrystring, "="); key := entry[0]; value := entry[1]`.
Reading `entry[1]` when the split produced a single element is an out-of-range
access (a runtime panic), modelled by `none`. -/
def parseEnvEntry (s : String) : Option (String × String) :=
  match goSplitEq s with
  | k :: v :: _ => some (k, v)
  | _ => none

/-! ## The environment, argument and option mappings of `startTestRunner12` -/

/-- The fixed baseline environment map literal of `startTestRunner12`,
modelled as a finite map from keys to values. -/
def baselineEnv (xctestConfigPath testBundlePath sessionIdentifier : String) :
    String → Option String := fun k =>
  if k = "CA_ASSERT_MAIN_THREAD_TRANSACTIONS" then some "0"
  else if k = "CA_DEBUG_TRANSACTIONS" then some "0"
  else if k = "DYLD_INSERT_LIBRARIES" then some "/Developer/usr/lib/libMainThreadChecker.dylib"
  else if k = "MTC_CRASH_ON_REPORT" then some "1"
  else if k = "NSUnbufferedIO" then some "YES"
  else if k = "OS_ACTIVITY_DT_MODE" then some "YES"
  else if k = "SQLITE_ENABLE_THREAD_ASSERTIONS" then some "1"
  else if k = "XCTestBundlePath" then some testBundlePath
  else if k = "XCTestConfigurationFilePath" then some xctestConfigPath
  else if k = "XCTestSessionIdentifier" then some sessionIdentifier
  else none

/-- Go map assignment `env[key] = value`. -/
def mapSet (m : String → Option String) (k v : String) : String → Option String :=
  fun q => if q = k then some v else m q

/-- The `for _, entrystring := range wdaenv` loop of `startTestRunner12`:
each entry is split on the separator and written into the map; a malformed
entry (no separator) panics, modelled by `none`. -/
def addWdaEnv (m : String → Option String) : List String → Option (String → Option String)
  | [] => some m
  | e :: rest =>
    match parseEnvEntry e with
    | none => none
    | some kv => addWdaEnv (mapSet m kv.1 kv.2) rest

/-- The values `startTestRunner12` passes to `pControl.StartProcess`. -/
structure StartProcessCall where
  bundleID : String
  env : String → Option String
  args : List String
  opts : String → Option Nat

/-- The option map literal of `startTestRunner12`
(`StartSuspendedKey: uint64(0), ActivateSuspended: uint64(1)`). -/
def runnerOpts : String → Option Nat := fun k =>
  if k = "StartSuspendedKey" then some 0
  else if k = "ActivateSuspended" then some 1
  else none

/-- `startTestRunner12` from ios/testmanagerd/xcuitestrunner_12.go, with the
final `pControl.StartProcess` call abstracted to the record of the values it
receives. `none` models the panic on a malformed caller environment entry. -/
def startTestRunner12 (xctestConfigPath bundleID sessionIdentifier testBundlePath : String)
    (wdaargs wdaenv : List String) : Option StartProcessCall :=
  match addWdaEnv (baselineEnv xctestConfigPath testBundlePath sessionIdentifier) wdaenv with
  | none => none
  | some env =>
    some ⟨bundleID, env,
      ["-NSTreatUnknownArgumentsAsOpen", "NO", "-ApplePersistenceIgnoreState", "YES"] ++ wdaargs,
      runnerOpts⟩

/-- The override that the caller-supplied entry list contributes for a key:
the value of the last well-formed entry whose key matches, if any. -/
def wdaOverride : List String → String → Option String
  | [], _ => none
  | e :: rest, k =>
    match wdaOverride rest k with
    | some v => some v
    | none =>
      match parseEnvEntry e with
      | some kv => if kv.1 = k then some kv.2 else none
      | none => none

/-! ## The session orchestration pipeline

`RunXUITestWithBundleIdsXcode12Ctx` is embedded as a function from an oracle
record (the outcomes of the external collaborator calls: usbmuxd connections,
test-config setup, the two capability negotiations, process control, the
runner launch, authorization, test-plan start, the two wait signals and the
process kill) to the trace of observable events and the function's outcome.
The delivery of the remote completion signal (the `ProxyDispatcher` close
channel) and the test-config setup live outside the embedded file and are
modelled from the spec as oracle fields: `completionFires` says whether the
remote "session finished" signal is ever delivered, and `testSessionId` is
the session token generated by the setup step. -/

/-- `nskeyedarchiver.XCTCapabilities`: a capability dictionary. -/
structure XCTCapabilities where
  dict : List (String × Nat)
deriving DecidableEq, Repr

/-- The empty capability set `XCTCapabilities{}` passed on the primary
channel. -/
def emptyCaps : XCTCapabilities := ⟨[]⟩

/-- The fixed local capability set negotiated on the secondary channel. -/
def localCaps : XCTCapabilities :=
  ⟨[("XCTIssue capability", 1), ("skipped test capability", 1),
    ("test timeout capability", 1)]⟩

/-- Observable events of one orchestrator run, in order of occurrence. -/
inductive Ev where
  | connCreated
  | setupDone
  | conn2Created
  | controlSessionInvoked (caps : XCTCapabilities)
  | sessionInvoked (token : String) (caps : XCTCapabilities)
  | pControlCreated
  | runnerStarted (pid : Nat)
  | channelRequested
  | sleepSec (n : Nat)
  | authorize (pid : Nat)
  | startPlan (protocolVersion : Nat)
  | killProcess (pid : Nat)
  | closedSignalSent
  | pControlClosed
  | conn2Closed
  | connClosed
deriving DecidableEq, Repr

/-- The wrapped errors `RunXUITestWithBundleIdsXcode12Ctx` can return, tagged
by the phase whose failure they wrap. -/
inductive RunError where
  | connCreate (e : String)
  | setup (e : String)
  | conn2Create (e : String)
  | controlSession (e : String)
  | sessionStart (e : String)
  | processControl (e : String)
  | startRunner (e : String)
  | startTestPlan (e : String)
  | killRunner (e : String)
deriving DecidableEq, Repr

/-- Outcome of a run: either the function returns (with `none` for the Go
`nil` error) or it blocks forever on a wait whose signal never fires. -/
inductive RunOutcome where
  | returns (e : Option RunError)
  | diverges
deriving DecidableEq, Repr

instance {ε α : Type} [DecidableEq ε] [DecidableEq α] : DecidableEq (Except ε α) := fun a b =>
  match a, b with
  | .error e, .error f => decidable_of_iff (e = f) (by simp)
  | .error _, .ok _ => isFalse (by simp)
  | .ok _, .error _ => isFalse (by simp)
  | .ok a, .ok b => decidable_of_iff (a = b) (by simp)

/-- Oracle record: outcomes of the external collaborator calls made by one
run of `RunXUITestWithBundleIdsXcode12Ctx`, plus whether each wait signal
ever fires. -/
structure RunEnv where
  connErr : Option String
  setupErr : Option String
  testSessionId : String
  conn2Err : Option String
  controlCaps : Except String XCTCapabilities
  sessionCaps : Except String XCTCapabilities
  pControlErr : Option String
  startRunner : Except String Nat
  authorizeReply : Bool × Option String
  startPlanErr : Option String
  ctxSupplied : Bool
  cancelFires : Bool
  completionFires : Bool
  killErr : Option String
deriving DecidableEq, Repr

/-- `RunXUITestWithBundleIdsXcode12Ctx` from
ios/testmanagerd/xcuitestrunner_12.go: the pipeline evaluated against an
oracle, yielding the event trace and the outcome. Deferred closes run in
LIFO order at every return; a return before the corresponding `defer`
statement was reached (the setup failure) closes nothing. The result of the
authorization call (`success, _ :=`) is discarded by the source, so
`authorizeReply` is never consulted. -/
def runSession (env : RunEnv) : List Ev × RunOutcome :=
  match env.connErr with
  | some e => ([], .returns (some (.connCreate e)))
  | none =>
  match env.setupErr with
  | some e => ([.connCreated], .returns (some (.setup e)))
  | none =>
  match env.conn2Err with
  | some e => ([.connCreated, .setupDone, .connClosed], .returns (some (.conn2Create e)))
  | none =>
  match env.controlCaps with
  | .error e =>
      ([.connCreated, .setupDone, .conn2Created, .controlSessionInvoked emptyCaps,
        .conn2Closed, .connClosed],
       .returns (some (.controlSession e)))
  | .ok _ =>
  match env.sessionCaps with
  | .error e =>
      ([.connCreated, .setupDone, .conn2Created, .controlSessionInvoked emptyCaps,
        .sessionInvoked env.testSessionId localCaps, .conn2Closed, .connClosed],
       .returns (some (.sessionStart e)))
  | .ok _ =>
  match env.pControlErr with
  | some e =>
      ([.connCreated, .setupDone, .conn2Created, .controlSessionInvoked emptyCaps,
        .sessionInvoked env.testSessionId localCaps, .conn2Closed, .connClosed],
       .returns (some (.processControl e)))
  | none =>
  match env.startRunner with
  | .error e =>
      ([.connCreated, .setupDone, .conn2Created, .controlSessionInvoked emptyCaps,
        .sessionInvoked env.testSessionId localCaps, .pControlCreated,
        .pControlClosed, .conn2Closed, .connClosed],
       .returns (some (.startRunner e)))
  | .ok pid =>
  match env.startPlanErr with
  | some e =>
      ([.connCreated, .setupDone, .conn2Created, .controlSessionInvoked emptyCaps,
        .sessionInvoked env.testSessionId localCaps, .pControlCreated,
        .runnerStarted pid, .channelRequested, .sleepSec 1, .authorize pid,
        .startPlan 36, .pControlClosed, .conn2Closed, .connClosed],
       .returns (some (.startTestPlan e)))
  | none =>
  if env.ctxSupplied then
    if env.cancelFires then
      match env.killErr with
      | some e =>
          ([.connCreated, .setupDone, .conn2Created, .controlSessionInvoked emptyCaps,
            .sessionInvoked env.testSessionId localCaps, .pControlCreated,
            .runnerStarted pid, .channelRequested, .sleepSec 1, .authorize pid,
            .startPlan 36, .killProcess pid, .pControlClosed, .conn2Closed, .connClosed],
           .returns (some (.killRunner e)))
      | none =>
          ([.connCreated, .setupDone, .conn2Created, .controlSessionInvoked emptyCaps,
            .sessionInvoked env.testSessionId localCaps, .pControlCreated,
            .runnerStarted pid, .channelRequested, .sleepSec 1, .authorize pid,
            .startPlan 36, .killProcess pid, .pControlClosed, .conn2Closed, .connClosed],
           .returns none)
    else
      ([.connCreated, .setupDone, .conn2Created, .controlSessionInvoked emptyCaps,
        .sessionInvoked env.testSessionId localCaps, .pControlCreated,
        .runnerStarted pid, .channelRequested, .sleepSec 1, .authorize pid,
        .startPlan 36],
       .diverges)
  else
    if env.completionFires then
      match env.killErr with
      | some e =>
          ([.connCreated, .setupDone, .conn2Created, .controlSessionInvoked emptyCaps,
            .sessionInvoked env.testSessionId localCaps, .pControlCreated,
            .runnerStarted pid, .channelRequested, .sleepSec 1, .authorize pid,
            .startPlan 36, .killProcess pid, .pControlClosed, .conn2Closed, .connClosed],
           .returns (some (.killRunner e)))
      | none =>
          ([.connCreated, .setupDone, .conn2Created, .controlSessionInvoked emptyCaps,
            .sessionInvoked env.testSessionId localCaps, .pControlCreated,
            .runnerStarted pid, .channelRequested, .sleepSec 1, .authorize pid,
            .startPlan 36, .killProcess pid, .closedSignalSent,
            .pControlClosed, .conn2Closed, .connClosed],
           .returns none)
    else
      ([.connCreated, .setupDone, .conn2Created, .controlSessionInvoked emptyCaps,
        .sessionInvoked env.testSessionId localCaps, .pControlCreated,
        .runnerStarted pid, .channelRequested, .sleepSec 1, .authorize pid,
        .startPlan 36],
       .diverges)

/-- Whether an `Except` oracle field is a success. -/
def isOkB {α : Type} : Except String α → Bool
  | .ok _ => true
  | .error _ => false

/-- The run gets past every step preceding the authorization call. -/
def reachesAuth (env : RunEnv) : Bool :=
  env.connErr.isNone && env.setupErr.isNone && env.conn2Err.isNone &&
  isOkB env.controlCaps && isOkB env.sessionCaps && env.pControlErr.isNone &&
  isOkB env.startRunner

/-- The run gets past the test-plan start and reaches the wait point. -/
def reachesWait (env : RunEnv) : Bool :=
  reachesAuth env && env.startPlanErr.isNone

/-- The pid the runner launch produced (`0` when the launch failed). -/
def pidOf (env : RunEnv) : Nat :=
  match env.startRunner with
  | .ok p => p
  | .error _ => 0

/-- Whether a trace contains an adjacent pair: the fixed one-second sleep
immediately followed by the authorization invocation. -/
def sleepPrecedesAuth : List Ev → Bool
  | Ev.sleepSec 1 :: Ev.authorize _ :: _ => true
  | _ :: rest => sleepPrecedesAuth rest
  | [] => false

/-- Whether a trace contains the test-plan start invocation. -/
def containsStartPlan : List Ev → Bool
  | Ev.startPlan _ :: _ => true
  | _ :: rest => containsStartPlan rest
  | [] => false

/-- Whether a trace contains a process-kill request. -/
def containsKill : List Ev → Bool
  | Ev.killProcess _ :: _ => true
  | _ :: rest => containsKill rest
  | [] => false

/-- The token carried by the first session-establishing invocation of a
trace, if any. -/
def tokenPassed : List Ev → Option String
  | Ev.sessionInvoked tok _ :: _ => some tok
  | _ :: rest => tokenPassed rest
  | [] => none

/-! ## The device-condition table

The REST handlers `EnableDeviceCondition` and `DisableDeviceCondition`
(agent/restapi/api) share a global map from device serial numbers to the
active condition, storing the `DeviceStateControl` pointer that enabled the
condition. Instances are modelled by a numeric identity; the external
`NewDeviceStateControl`, `List`, `VerifyProfileAndType`, `Enable` and
`Disable` calls are oracle fields of the request. -/

/-- One recorded `deviceCondition` map entry: the verified profile-type and
profile identifiers and the identity of the `DeviceStateControl` instance
that enabled the condition. -/
structure DevCondition where
  profileTypeId : String
  profileId : String
  stateControl : Nat
deriving DecidableEq, Repr

/-- One `EnableDeviceCondition` request together with the outcomes of the
external calls it would make: query parameters (empty string means missing),
the identity of the freshly constructed `DeviceStateControl`, and the results
of `List`, `VerifyProfileAndType` (the verified identifier pair) and
`Enable`. -/
structure EnableReq where
  udid : String
  profileTypeID : String
  profileID : String
  newControl : Except String Nat
  listRes : Option String
  verify : Except String (String × String)
  enableRes : Option String
deriving DecidableEq, Repr

/-- The HTTP responses the handlers produce. `okError` is a 200 response
carrying an `Error` field, as the handlers send for an already-conditioned
or unconditioned device. -/
inductive ApiResp where
  | okMsg (m : String)
  | okError (m : String)
  | unprocessable (m : String)
  | serverError (m : String)
deriving DecidableEq, Repr

/-- Calls the handlers make on `DeviceStateControl` instances, recording
which instance they are made on. -/
inductive CondEv where
  | enableInvoked (control : Nat) (profileTypeId profileId : String)
  | disableInvoked (control : Nat) (profileTypeId : String)
deriving DecidableEq, Repr

/-- The global `deviceConditionsMap`, keyed by device serial number. -/
abbrev CondState := List (String × DevCondition)

/-- Go map read `deviceConditionsMap[udid]`. -/
def lookupCond (s : CondState) (udid : String) : Option DevCondition :=
  List.lookup udid s

/-- `EnableDeviceCondition`: the handler body under the mutex, as a
transition on the device-condition table, yielding the new table, the HTTP
response and the instance calls made. -/
def enableDeviceCondition (s : CondState) (r : EnableReq) :
    CondState × ApiResp × List CondEv :=
  match lookupCond s r.udid with
  | some c =>
      (s, .okError ("Device has an active condition - profileTypeID=" ++ c.profileTypeId ++
        ", profileID=" ++ c.profileId), [])
  | none =>
  if r.profileTypeID = "" then
    (s, .unprocessable "profileTypeID query param is missing", [])
  else if r.profileID = "" then
    (s, .unprocessable "profileID query param is missing", [])
  else
  match r.newControl with
  | .error e => (s, .serverError e, [])
  | .ok control =>
  match r.listRes with
  | some e => (s, .serverError e, [])
  | none =>
  match r.verify with
  | .error e => (s, .serverError e, [])
  | .ok pp =>
  match r.enableRes with
  | some e => (s, .serverError e, [.enableInvoked control pp.1 pp.2])
  | none =>
      (s ++ [(r.udid, ⟨pp.1, pp.2, control⟩)],
       .okMsg ("Enabled condition for ProfileType=" ++ r.profileTypeID ++
         " and Profile=" ++ r.profileID),
       [.enableInvoked control pp.1 pp.2])

/-- `DisableDeviceCondition`: the handler body under the mutex. `disableRes`
is the outcome of the `Disable` call on the stored instance; on an error the
map entry is kept (the handler returns before the delete). -/
def disableDeviceCondition (s : CondState) (udid : String) (disableRes : Option String) :
    CondState × ApiResp × List CondEv :=
  match lookupCond s udid with
  | none => (s, .okError "Device has no active condition", [])
  | some c =>
    match disableRes with
    | some e => (s, .serverError e, [.disableInvoked c.stateControl c.profileTypeId])
    | none =>
        (s.filter (fun p => p.1 ≠ udid), .okMsg "Device condition disabled",
         [.disableInvoked c.stateControl c.profileTypeId])

/-- One serialized handler invocation (the mutex serializes them). -/
inductive DevOp where
  | enable (r : EnableReq)
  | disable (udid : String) (res : Option String)
deriving DecidableEq, Repr

/-- The table transition of one handler invocation. -/
def devStep (s : CondState) (op : DevOp) : CondState :=
  match op with
  | .enable r => (enableDeviceCondition s r).1
  | .disable u res => (disableDeviceCondition s u res).1

/-- The table after a sequence of handler invocations starting from the
initial empty map. -/
def runDevOps (ops : List DevOp) : CondState := ops.foldl devStep []

/-! ## Concrete oracle environments used to evaluate the pipeline -/

/-- A run in which every external call succeeds, no cancellation signal is
supplied and the remote completion signal is delivered. -/
def happyEnv : RunEnv :=
  { connErr := none
    setupErr := none
    testSessionId := "D6D4CB39-EF48-4B2C-9A2B-10D8AE423B1C"
    conn2Err := none
    controlCaps := Except.ok ⟨[("control", 1)]⟩
    sessionCaps := Except.ok ⟨[("XCTIssue capability", 1)]⟩
    pControlErr := none
    startRunner := Except.ok 1234
    authorizeReply := (true, none)
    startPlanErr := none
    ctxSupplied := false
    cancelFires := false
    completionFires := true
    killErr := none }

/-- A run with a cancellation signal supplied in which the remote completion
signal is delivered but the cancellation signal never fires. -/
def envCompletionOnly : RunEnv :=
  { happyEnv with ctxSupplied := true, cancelFires := false, completionFires := true }

/-- A run in which the test-plan start invocation fails with a remote
fault. -/
def envPlanFault : RunEnv :=
  { happyEnv with startPlanErr := some "remote fault" }

/-- A cancelled run whose process-kill request reports an error. -/
def envCancelKillFails : RunEnv :=
  { happyEnv with ctxSupplied := true, cancelFires := true,
                  killErr := some "kill reported an error" }

/-- A completed run whose process-kill request reports that the process
already exited. -/
def envCompletedKillFails : RunEnv :=
  { happyEnv with killErr := some "process already exited" }

/-- `happyEnv` with a different setup-generated session token. -/
def envOtherToken : RunEnv :=
  { happyEnv with testSessionId := "5AA18N0T-THE0-THER-T0KE-N5AA18N0TTHE" }

/-- A run with a cancellation signal supplied that fires, whose kill
succeeds. -/
def envCancelled : RunEnv :=
  { happyEnv with ctxSupplied := true, cancelFires := true, completionFires := false }

/-- A fully successful enable request for device `udid-1`, whose fresh
`DeviceStateControl` instance has identity `7`. -/
def sampleEnableReq : EnableReq :=
  ⟨"udid-1", "SlowNetworkCondition", "SlowNetwork100PctLoss", Except.ok 7, none,
    Except.ok ("SlowNetworkCondition", "SlowNetwork100PctLoss"), none⟩

/-- The condition `sampleEnableReq` records. -/
def sampleCond : DevCondition := ⟨"SlowNetworkCondition", "SlowNetwork100PctLoss", 7⟩

/-- A device-condition table with one recorded condition. -/
def sampleState : CondState := [("udid-1", sampleCond)]

/-! ## Lemmas about entry splitting and the environment merge -/

theorem splitEq_ne_nil (l : List Char) : splitEq l ≠ [] := by
  induction l with
  | nil => simp [splitEq]
  | cons c cs ih =>
    simp only [splitEq]
    cases h : splitEq cs with
    | nil => exact absurd h ih
    | cons f r =>
      split
      · simp
      · split <;> simp

theorem splitEq_of_not_contains (l : List Char) (h : containsEq l = false) :
    splitEq l = [l] := by
  induction l with
  | nil => rfl
  | cons c cs ih =>
    simp only [containsEq] at h
    by_cases hc : c = '='
    · simp [hc] at h
    · simp only [if_neg hc] at h
      simp [splitEq, ih h, hc]

theorem splitEq_two_of_contains (l : List Char) (h : containsEq l = true) :
    ∃ a b r, splitEq l = a :: b :: r := by
  induction l with
  | nil => simp [containsEq] at h
  | cons c cs ih =>
    simp only [containsEq] at h
    by_cases hc : c = '='
    · cases hs : splitEq cs with
      | nil => exact absurd hs (splitEq_ne_nil cs)
      | cons f r => exact ⟨[], f, r, by simp [splitEq, hs, hc]⟩
    · simp only [if_neg hc] at h
      obtain ⟨a, b, r, hs⟩ := ih h
      exact ⟨c :: a, b, r, by simp [splitEq, hs, hc]⟩

theorem parseEnvEntry_some_of_contains (s : String) (h : strContainsEq s = true) :
    ∃ kv, parseEnvEntry s = some kv := by
  obtain ⟨a, b, r, hs⟩ := splitEq_two_of_contains s.data h
  exact ⟨(String.mk a, String.mk b), by simp [parseEnvEntry, goSplitEq, hs]⟩

theorem parseEnvEntry_none_of_not_contains (s : String) (h : strContainsEq s = false) :
    parseEnvEntry s = none := by
  simp [parseEnvEntry, goSplitEq, splitEq_of_not_contains s.data h]

theorem goSplitEq_of_not_contains (s : String) (h : strContainsEq s = false) :
    goSplitEq s = [s] := by
  simp [goSplitEq, splitEq_of_not_contains s.data h]

theorem addWdaEnv_ok (l : List String) (m : String → Option String)
    (h : ∀ e ∈ l, strContainsEq e = true) :
    ∃ m', addWdaEnv m l = some m' ∧
      ∀ k, m' k = match wdaOverride l k with
                  | some v => some v
                  | none => m k := by
  induction l generalizing m with
  | nil => exact ⟨m, rfl, fun k => by simp [wdaOverride]⟩
  | cons e rest ih =>
    obtain ⟨kv, hkv⟩ := parseEnvEntry_some_of_contains e (h e (by simp))
    obtain ⟨m', hm', hval⟩ := ih (mapSet m kv.1 kv.2) (fun x hx => h x (by simp [hx]))
    refine ⟨m', by simp [addWdaEnv, hkv, hm'], fun k => ?_⟩
    rw [hval k]
    simp only [wdaOverride, hkv]
    cases wdaOverride rest k with
    | some v => rfl
    | none =>
      simp only [mapSet]
      by_cases hk : kv.1 = k
      · simp [hk]
      · have hk2 : ¬k = kv.1 := fun hh => hk hh.symm
        simp [hk, hk2]

theorem addWdaEnv_none (l : List String) (m : String → Option String) (e : String)
    (he : e ∈ l) (h : strContainsEq e = false) : addWdaEnv m l = none := by
  induction l generalizing m with
  | nil => cases he
  | cons x rest ih =>
    cases he with
    | head =>
      simp [addWdaEnv, parseEnvEntry_none_of_not_contains e h]
    | tail _ hmem =>
      cases hx : parseEnvEntry x with
      | none => simp [addWdaEnv, hx]
      | some kv => simp [addWdaEnv, hx, ih (mapSet m kv.1 kv.2) hmem]

/-! ## C7, C8, C10: the `startTestRunner12` call -/

/-- C7: for every caller-supplied environment list whose entries all contain
the separator, the environment mapping passed to `StartProcess` is the fixed
baseline merged with the parsed caller entries, and on every key collision
the caller-supplied value replaces the baseline value (the last caller entry
for a key wins). -/
theorem c7_env_merge (xctestConfigPath bundleID sessionIdentifier testBundlePath : String)
    (wdaargs wdaenv : List String) (k : String)
    (h : ∀ e ∈ wdaenv, strContainsEq e = true) :
    ∃ call, startTestRunner12 xctestConfigPath bundleID sessionIdentifier testBundlePath
        wdaargs wdaenv = some call ∧
      call.env k = match wdaOverride wdaenv k with
                   | some v => some v
                   | none => baselineEnv xctestConfigPath testBundlePath sessionIdentifier k := by
  obtain ⟨m', hm', hval⟩ :=
    addWdaEnv_ok wdaenv (baselineEnv xctestConfigPath testBundlePath sessionIdentifier) h
  refine ⟨⟨bundleID, m',
    ["-NSTreatUnknownArgumentsAsOpen", "NO", "-ApplePersistenceIgnoreState", "YES"] ++ wdaargs,
    runnerOpts⟩, ?_, hval k⟩
  simp [startTestRunner12, hm']

/-- Witness for C7 at a concrete input: the caller entry overrides the
baseline value of `XCTestSessionIdentifier`, the untouched baseline key
`NSUnbufferedIO` and a fresh caller key keep their expected values. -/
theorem c7_env_merge_witness :
    (∀ e ∈ ["XCTestSessionIdentifier=other", "EXTRA=1"], strContainsEq e = true) ∧
    (∃ call, startTestRunner12 "cfgPath" "bid" "sid" "bundlePath" []
        ["XCTestSessionIdentifier=other", "EXTRA=1"] = some call ∧
      call.env "XCTestSessionIdentifier" =
        match wdaOverride ["XCTestSessionIdentifier=other", "EXTRA=1"] "XCTestSessionIdentifier" with
        | some v => some v
        | none => baselineEnv "cfgPath" "bundlePath" "sid" "XCTestSessionIdentifier") :=
  ⟨by decide, c7_env_merge "cfgPath" "bid" "sid" "bundlePath" []
      ["XCTestSessionIdentifier=other", "EXTRA=1"] "XCTestSessionIdentifier" (by decide)⟩

/-- C8: every `StartProcess` call made when launching the test runner carries
the options "start suspended = 0" and "activate when started = 1", whatever
the caller-supplied arguments and environment are. -/
theorem c8_runner_opts (xctestConfigPath bundleID sessionIdentifier testBundlePath : String)
    (wdaargs wdaenv : List String) (call : StartProcessCall)
    (h : startTestRunner12 xctestConfigPath bundleID sessionIdentifier testBundlePath
        wdaargs wdaenv = some call) :
    call.opts "StartSuspendedKey" = some 0 ∧ call.opts "ActivateSuspended" = some 1 := by
  unfold startTestRunner12 at h
  cases haw : addWdaEnv (baselineEnv xctestConfigPath testBundlePath sessionIdentifier) wdaenv with
  | none => rw [haw] at h; cases h
  | some m =>
    rw [haw] at h
    cases h
    exact ⟨rfl, rfl⟩

/-- Witness for C8 at a concrete input with caller arguments and a caller
environment entry supplied. -/
theorem c8_runner_opts_witness :
    (startTestRunner12 "cfgPath" "bid" "sid" "bundlePath" ["-arg"] ["A=B"] =
      some ⟨"bid", mapSet (baselineEnv "cfgPath" "bundlePath" "sid") "A" "B",
        ["-NSTreatUnknownArgumentsAsOpen", "NO", "-ApplePersistenceIgnoreState", "YES", "-arg"],
        runnerOpts⟩) ∧
    runnerOpts "StartSuspendedKey" = some 0 ∧ runnerOpts "ActivateSuspended" = some 1 :=
  ⟨rfl, c8_runner_opts "cfgPath" "bid" "sid" "bundlePath" ["-arg"] ["A=B"] _ rfl⟩

/-- C10: every caller-supplied environment entry must contain the separator
character: an entry without it splits into a single element, reading element
1 of the split is an out-of-range access (a panic, modelled by `none`), and
under the precondition that every entry contains the separator this panic is
unreachable. -/
theorem c10_entry_precondition :
    (∀ s : String, strContainsEq s = false → goSplitEq s = [s]) ∧
    (∀ xctestConfigPath bundleID sessionIdentifier testBundlePath : String,
      ∀ wdaargs wdaenv : List String, ∀ e : String, e ∈ wdaenv → strContainsEq e = false →
      startTestRunner12 xctestConfigPath bundleID sessionIdentifier testBundlePath
        wdaargs wdaenv = none) ∧
    (∀ xctestConfigPath bundleID sessionIdentifier testBundlePath : String,
      ∀ wdaargs wdaenv : List String, (∀ e ∈ wdaenv, strContainsEq e = true) →
      (startTestRunner12 xctestConfigPath bundleID sessionIdentifier testBundlePath
        wdaargs wdaenv).isSome = true) := by
  refine ⟨goSplitEq_of_not_contains, ?_, ?_⟩
  · intro xcp bid sid tbp wa we e he h
    simp [startTestRunner12, addWdaEnv_none we _ e he h]
  · intro xcp bid sid tbp wa we h
    obtain ⟨m', hm', _⟩ := addWdaEnv_ok we (baselineEnv xcp tbp sid) h
    simp [startTestRunner12, hm']

/-- Witness for C10 at concrete inputs: `"NOEQUALS"` splits into one
element and makes the launch panic, while the well-formed list `["A=B"]`
passes. -/
theorem c10_entry_precondition_witness :
    (strContainsEq "NOEQUALS" = false ∧ goSplitEq "NOEQUALS" = ["NOEQUALS"]) ∧
    ("NOEQUALS" ∈ ["NOEQUALS"] ∧
      startTestRunner12 "c" "b" "s" "t" [] ["NOEQUALS"] = none) ∧
    ((∀ e ∈ ["A=B"], strContainsEq e = true) ∧
      (startTestRunner12 "c" "b" "s" "t" [] ["A=B"]).isSome = true) :=
  ⟨⟨by decide, c10_entry_precondition.1 "NOEQUALS" (by decide)⟩,
   ⟨by decide, c10_entry_precondition.2.1 "c" "b" "s" "t" [] ["NOEQUALS"] "NOEQUALS"
      (by decide) (by decide)⟩,
   ⟨by decide, c10_entry_precondition.2.2 "c" "b" "s" "t" [] ["A=B"] (by decide)⟩⟩

/-! ## Lemmas about the device-condition table -/

theorem lookupCond_none_not_mem (s : CondState) (u : String)
    (h : lookupCond s u = none) : u ∉ s.map Prod.fst := by
  induction s with
  | nil => simp
  | cons p t ih =>
    obtain ⟨k, v⟩ := p
    simp only [lookupCond, List.lookup] at h
    cases hk : u == k with
    | true => rw [hk] at h; cases h
    | false =>
      rw [hk] at h
      have hne : u ≠ k := by simpa using hk
      simp [List.mem_cons, hne, ih h]

theorem lookupCond_append (s t : CondState) (u : String) :
    lookupCond (s ++ t) u = match lookupCond s u with
      | some v => some v
      | none => lookupCond t u := by
  induction s with
  | nil => simp [lookupCond]
  | cons p rest ih =>
    obtain ⟨k, v⟩ := p
    simp only [lookupCond, List.cons_append, List.lookup] at ih ⊢
    cases u == k <;> simp [ih]

theorem lookupCond_singleton (k : String) (v : DevCondition) (u : String) (c : DevCondition)
    (h : lookupCond [(k, v)] u = some c) : u = k ∧ c = v := by
  simp only [lookupCond, List.lookup] at h
  cases hk : u == k with
  | true =>
    rw [hk] at h
    cases h
    exact ⟨by simpa using hk, rfl⟩
  | false =>
    rw [hk] at h
    cases h

theorem lookupCond_filter_self (s : CondState) (v : String) :
    lookupCond (s.filter (fun p => p.1 ≠ v)) v = none := by
  induction s with
  | nil => rfl
  | cons p rest ih =>
    obtain ⟨k, w⟩ := p
    by_cases hkv : k = v
    · rw [List.filter_cons_of_neg (by simp [hkv])]
      exact ih
    · rw [List.filter_cons_of_pos (by simp [hkv])]
      simp only [lookupCond, List.lookup]
      rw [show (v == k) = false by simpa using fun h => hkv h.symm]
      exact ih

theorem lookupCond_filter (s : CondState) (v u : String) (c : DevCondition)
    (h : lookupCond (s.filter (fun p => p.1 ≠ v)) u = some c) :
    lookupCond s u = some c := by
  induction s with
  | nil => cases h
  | cons p rest ih =>
    obtain ⟨k, w⟩ := p
    by_cases hkv : k = v
    · rw [List.filter_cons_of_neg (by simp [hkv])] at h
      have hune : u ≠ k := by
        intro hu
        rw [hu, hkv, lookupCond_filter_self rest v] at h
        cases h
      simp only [lookupCond, List.lookup]
      rw [show (u == k) = false by simpa using hune]
      exact ih h
    · rw [List.filter_cons_of_pos (by simp [hkv])] at h
      simp only [lookupCond, List.lookup] at h ⊢
      cases hu : u == k with
      | true => rw [hu] at h; exact h
      | false => rw [hu] at h; exact ih h

theorem enable_state_cases (s : CondState) (r : EnableReq) :
    (enableDeviceCondition s r).1 = s ∨
    (lookupCond s r.udid = none ∧ ∃ control pp, r.newControl = Except.ok control ∧
      r.verify = Except.ok pp ∧
      (enableDeviceCondition s r).1 = s ++ [(r.udid, ⟨pp.1, pp.2, control⟩)]) := by
  unfold enableDeviceCondition
  cases hl : lookupCond s r.udid with
  | some c => exact Or.inl rfl
  | none =>
    by_cases h1 : r.profileTypeID = ""
    · simp [h1]
    by_cases h2 : r.profileID = ""
    · simp [h1, h2]
    cases hc : r.newControl with
    | error e => simp [h1, h2]
    | ok control =>
      cases hlr : r.listRes with
      | some e => simp [h1, h2]
      | none =>
        cases hv : r.verify with
        | error e => simp [h1, h2]
        | ok pp =>
          cases he : r.enableRes with
          | some e => simp [h1, h2]
          | none =>
            exact Or.inr ⟨rfl, control, pp, rfl, rfl, by simp [h1, h2]⟩

theorem disable_state_cases (s : CondState) (u : String) (res : Option String) :
    (disableDeviceCondition s u res).1 = s ∨
    (disableDeviceCondition s u res).1 = s.filter (fun p => p.1 ≠ u) := by
  unfold disableDeviceCondition
  cases lookupCond s u with
  | none => exact Or.inl rfl
  | some c =>
    cases res with
    | some e => exact Or.inl rfl
    | none => exact Or.inr rfl

theorem devStep_nodup (s : CondState) (op : DevOp) (h : (s.map Prod.fst).Nodup) :
    ((devStep s op).map Prod.fst).Nodup := by
  cases op with
  | disable u res =>
    show (((disableDeviceCondition s u res).1).map Prod.fst).Nodup
    rcases disable_state_cases s u res with he | he <;> rw [he]
    · exact h
    · exact List.Nodup.sublist ((List.filter_sublist s).map Prod.fst) h
  | enable r =>
    show (((enableDeviceCondition s r).1).map Prod.fst).Nodup
    rcases enable_state_cases s r with he | ⟨hl, control, pp, _, _, he⟩ <;> rw [he]
    · exact h
    · have hnm := lookupCond_none_not_mem s r.udid hl
      simp [List.nodup_append, h, hnm]

theorem foldl_devStep_nodup (ops : List DevOp) :
    ∀ s : CondState, (s.map Prod.fst).Nodup → ((ops.foldl devStep s).map Prod.fst).Nodup := by
  induction ops with
  | nil => exact fun s h => h
  | cons op rest ih => exact fun s h => ih (devStep s op) (devStep_nodup s op h)

theorem devProv (ops : List DevOp) :
    ∀ (s : CondState) (u : String) (c : DevCondition),
    lookupCond (ops.foldl devStep s) u = some c →
    lookupCond s u = some c ∨
    ∃ r, DevOp.enable r ∈ ops ∧ r.udid = u ∧ r.newControl = Except.ok c.stateControl := by
  induction ops with
  | nil => exact fun s u c h => Or.inl h
  | cons op rest ih =>
    intro s u c h
    rcases ih (devStep s op) u c h with h' | ⟨r, hr, hru, hrc⟩
    · cases op with
      | disable v res =>
        have hds : devStep s (DevOp.disable v res) = (disableDeviceCondition s v res).1 := rfl
        rw [hds] at h'
        rcases disable_state_cases s v res with he | he <;> rw [he] at h'
        · exact Or.inl h'
        · exact Or.inl (lookupCond_filter s v u c h')
      | enable r =>
        have hes : devStep s (DevOp.enable r) = (enableDeviceCondition s r).1 := rfl
        rw [hes] at h'
        rcases enable_state_cases s r with he | ⟨hl, control, pp, hctl, hv, he⟩ <;> rw [he] at h'
        · exact Or.inl h'
        · rw [lookupCond_append] at h'
          cases hs : lookupCond s u with
          | some c' =>
            rw [hs] at h'
            cases h'
            exact Or.inl rfl
          | none =>
            rw [hs] at h'
            obtain ⟨huk, hcv⟩ := lookupCond_singleton r.udid ⟨pp.1, pp.2, control⟩ u c h'
            refine Or.inr ⟨r, List.mem_cons_self _ _, huk.symm, ?_⟩
            rw [hctl, hcv]
    · exact Or.inr ⟨r, List.mem_cons_of_mem _ hr, hru, hrc⟩

/-! ## C9: the device-condition table invariants -/

/-- C9: (i) the table keyed by device identifier never holds two conditions
for one device; (ii) `DisableDeviceCondition` invokes `Disable` on exactly
the `DeviceStateControl` instance stored alongside the key; (iii) enabling
while a condition is already recorded leaves the table unchanged; (iv) every
stored instance is the one a successful enable request for that device
constructed. -/
theorem c9_condition_table :
    (∀ ops : List DevOp, ((runDevOps ops).map Prod.fst).Nodup) ∧
    (∀ (s : CondState) (udid : String) (res : Option String) (c : DevCondition),
      lookupCond s udid = some c →
      (disableDeviceCondition s udid res).2.2 =
        [CondEv.disableInvoked c.stateControl c.profileTypeId]) ∧
    (∀ (s : CondState) (r : EnableReq) (c : DevCondition),
      lookupCond s r.udid = some c → (enableDeviceCondition s r).1 = s) ∧
    (∀ (ops : List DevOp) (udid : String) (c : DevCondition),
      lookupCond (runDevOps ops) udid = some c →
      ∃ r, DevOp.enable r ∈ ops ∧ r.udid = udid ∧
        r.newControl = Except.ok c.stateControl) := by
  refine ⟨fun ops => foldl_devStep_nodup ops [] (by simp), ?_, ?_, ?_⟩
  · intro s udid res c h
    unfold disableDeviceCondition
    rw [h]
    cases res <;> rfl
  · intro s r c h
    unfold enableDeviceCondition
    rw [h]
  · intro ops udid c h
    rcases devProv ops [] udid c h with h' | h'
    · cases h'
    · exact h'

/-- Witness for C9 at concrete inputs: one successful enable records the
table `sampleState`; disabling invokes `Disable` on the stored instance `7`;
a second enable leaves the table unchanged; and the stored instance stems
from the enabling request. -/
theorem c9_condition_table_witness :
    ((runDevOps [DevOp.enable sampleEnableReq]).map Prod.fst).Nodup ∧
    (lookupCond sampleState "udid-1" = some sampleCond ∧
      (disableDeviceCondition sampleState "udid-1" none).2.2 =
        [CondEv.disableInvoked sampleCond.stateControl sampleCond.profileTypeId]) ∧
    ((enableDeviceCondition sampleState sampleEnableReq).1 = sampleState) ∧
    (∃ r, DevOp.enable r ∈ [DevOp.enable sampleEnableReq] ∧ r.udid = "udid-1" ∧
      r.newControl = Except.ok sampleCond.stateControl) :=
  ⟨c9_condition_table.1 [DevOp.enable sampleEnableReq],
   ⟨by decide, c9_condition_table.2.1 sampleState "udid-1" none sampleCond (by decide)⟩,
   c9_condition_table.2.2.1 sampleState sampleEnableReq sampleCond (by decide),
   c9_condition_table.2.2.2 [DevOp.enable sampleEnableReq] "udid-1" sampleCond (by decide)⟩

/-! ## C1: the Executing wait -/

/-- C1 counterexample: a run with a cancellation signal supplied in which
the remote completion signal fires (and cancellation never does) does not
terminate — the wait suspends only on the cancellation signal, so a
completion signal that fires first does not terminate the run. -/
theorem c1_counterexample :
    envCompletionOnly.ctxSupplied = true ∧ envCompletionOnly.completionFires = true ∧
    envCompletionOnly.cancelFires = false ∧
    (runSession envCompletionOnly).2 = RunOutcome.diverges := by decide

/-- C1 amended: when a cancellation signal is supplied, the Executing wait
suspends only on cancellation — the run terminates exactly when the
cancellation signal fires, and the completion signal is ignored entirely;
when no cancellation signal is supplied, the run terminates exactly when the
completion signal fires. -/
theorem c1_wait_select (env : RunEnv) (h : reachesWait env = true) :
    (env.ctxSupplied = true →
      (((runSession env).2 = RunOutcome.diverges) ↔ env.cancelFires = false) ∧
      ∀ b, runSession { env with completionFires := b } = runSession env) ∧
    (env.ctxSupplied = false →
      (((runSession env).2 = RunOutcome.diverges) ↔ env.completionFires = false)) := by
  obtain ⟨e1, e2, sid, e3, cc, scp, pce, sr, ar, spe, cs, caf, cof, ke⟩ := env
  simp only [reachesWait, reachesAuth, Bool.and_eq_true, Option.isNone_iff_eq_none] at h
  obtain ⟨⟨⟨⟨⟨⟨⟨h1, h2⟩, h3⟩, h4⟩, h5⟩, h6⟩, h7⟩, h8⟩ := h
  subst h1; subst h2; subst h3; subst h6; subst h8
  cases cc with
  | error e => simp [isOkB] at h4
  | ok ccv =>
  cases scp with
  | error e => simp [isOkB] at h5
  | ok scv =>
  cases sr with
  | error e => simp [isOkB] at h7
  | ok pid =>
  cases cs <;> cases caf <;> cases cof <;> cases ke <;>
    refine ⟨fun hc => ?_, fun hc => ?_⟩ <;> simp_all [runSession]

/-- Witness for C1 amended at a concrete cancelled run: the run terminates,
and replacing the completion signal changes nothing. -/
theorem c1_wait_select_witness :
    reachesWait envCancelled = true ∧
    (((runSession envCancelled).2 = RunOutcome.diverges) ↔ envCancelled.cancelFires = false) ∧
    runSession { envCancelled with completionFires := true } = runSession envCancelled :=
  ⟨by decide, ((c1_wait_select envCancelled (by decide)).1 rfl).1,
    ((c1_wait_select envCancelled (by decide)).1 rfl).2 true⟩

/-! ## C2: test-plan start failure -/

/-- C2 counterexample: when the test-plan start invocation fails, the run
returns the wrapped error but the launched test-runner process is never
killed — the teardown only closes the connections. -/
theorem c2_counterexample :
    (runSession envPlanFault).2 =
      RunOutcome.returns (some (RunError.startTestPlan "remote fault")) ∧
    containsKill (runSession envPlanFault).1 = false := by decide

/-- C2 amended: a test-plan start failure makes the run return a descriptive
wrapped error, but the already-launched test-runner process is not killed
during teardown; only the deferred connection closes run. -/
theorem c2_plan_failure_no_kill (env : RunEnv) (e : String)
    (h : reachesAuth env = true) (hp : env.startPlanErr = some e) :
    (runSession env).2 = RunOutcome.returns (some (RunError.startTestPlan e)) ∧
    containsKill (runSession env).1 = false := by
  obtain ⟨e1, e2, sid, e3, cc, scp, pce, sr, ar, spe, cs, caf, cof, ke⟩ := env
  simp only [reachesAuth, Bool.and_eq_true, Option.isNone_iff_eq_none] at h
  obtain ⟨⟨⟨⟨⟨⟨h1, h2⟩, h3⟩, h4⟩, h5⟩, h6⟩, h7⟩ := h
  subst h1; subst h2; subst h3; subst h6
  simp only at hp
  subst hp
  cases cc with
  | error e => simp [isOkB] at h4
  | ok ccv =>
  cases scp with
  | error e => simp [isOkB] at h5
  | ok scv =>
  cases sr with
  | error e => simp [isOkB] at h7
  | ok pid =>
  exact ⟨rfl, rfl⟩

/-- Witness for C2 amended at a concrete input. -/
theorem c2_plan_failure_no_kill_witness :
    reachesAuth envPlanFault = true ∧ envPlanFault.startPlanErr = some "remote fault" ∧
    (runSession envPlanFault).2 =
      RunOutcome.returns (some (RunError.startTestPlan "remote fault")) ∧
    containsKill (runSession envPlanFault).1 = false :=
  ⟨by decide, by decide,
    (c2_plan_failure_no_kill envPlanFault "remote fault" (by decide) (by decide)).1,
    (c2_plan_failure_no_kill envPlanFault "remote fault" (by decide) (by decide)).2⟩

/-! ## C3: outcome of a cancelled run -/

/-- C3 counterexample: a cancelled run whose process-kill request reports an
error returns a wrapped kill error, not the `nil` result the claim promises
regardless of what the termination request reports. -/
theorem c3_counterexample :
    envCancelKillFails.ctxSupplied = true ∧ envCancelKillFails.cancelFires = true ∧
    (runSession envCancelKillFails).2 =
      RunOutcome.returns (some (RunError.killRunner "kill reported an error")) ∧
    (runSession envCancelKillFails).2 ≠ RunOutcome.returns none := by decide

/-- C3 amended: when the cancellation signal fires while the session is
executing, the orchestrator kills the runner and returns `nil` exactly when
the kill request succeeds; a kill error is returned as a wrapped error. -/
theorem c3_cancel_outcome (env : RunEnv)
    (h : reachesWait env = true) (hc : env.ctxSupplied = true) (hf : env.cancelFires = true) :
    (runSession env).2 = RunOutcome.returns (Option.map RunError.killRunner env.killErr) ∧
    containsKill (runSession env).1 = true := by
  obtain ⟨e1, e2, sid, e3, cc, scp, pce, sr, ar, spe, cs, caf, cof, ke⟩ := env
  simp only [reachesWait, reachesAuth, Bool.and_eq_true, Option.isNone_iff_eq_none] at h
  obtain ⟨⟨⟨⟨⟨⟨⟨h1, h2⟩, h3⟩, h4⟩, h5⟩, h6⟩, h7⟩, h8⟩ := h
  subst h1; subst h2; subst h3; subst h6; subst h8
  simp only at hc hf
  subst hc; subst hf
  cases cc with
  | error e => simp [isOkB] at h4
  | ok ccv =>
  cases scp with
  | error e => simp [isOkB] at h5
  | ok scv =>
  cases sr with
  | error e => simp [isOkB] at h7
  | ok pid =>
  cases ke <;> exact ⟨rfl, rfl⟩

/-- Witness for C3 amended at a concrete cancelled run with a failing
kill. -/
theorem c3_cancel_outcome_witness :
    reachesWait envCancelKillFails = true ∧ envCancelKillFails.ctxSupplied = true ∧
    envCancelKillFails.cancelFires = true ∧
    (runSession envCancelKillFails).2 =
      RunOutcome.returns (Option.map RunError.killRunner envCancelKillFails.killErr) ∧
    containsKill (runSession envCancelKillFails).1 = true :=
  ⟨by decide, by decide, by decide,
    (c3_cancel_outcome envCancelKillFails (by decide) (by decide) (by decide)).1,
    (c3_cancel_outcome envCancelKillFails (by decide) (by decide) (by decide)).2⟩

/-! ## C4: kill errors during teardown -/

/-- C4 counterexample: a completed run whose kill request reports that the
process already exited returns that error to the caller as a fatal wrapped
error — the orchestrator does not treat it as non-fatal. -/
theorem c4_counterexample :
    envCompletedKillFails.ctxSupplied = false ∧
    envCompletedKillFails.completionFires = true ∧
    envCompletedKillFails.killErr = some "process already exited" ∧
    (runSession envCompletedKillFails).2 =
      RunOutcome.returns (some (RunError.killRunner "process already exited")) ∧
    (runSession envCompletedKillFails).2 ≠ RunOutcome.returns none := by decide

/-- C4 amended: whenever the process-termination request reports an error —
on the cancellation path or on the completion path — the orchestrator
returns it to the caller as a fatal wrapped kill error. -/
theorem c4_kill_error_fatal (env : RunEnv) (e : String)
    (h : reachesWait env = true) (hk : env.killErr = some e)
    (hpath : (env.ctxSupplied = true ∧ env.cancelFires = true) ∨
             (env.ctxSupplied = false ∧ env.completionFires = true)) :
    (runSession env).2 = RunOutcome.returns (some (RunError.killRunner e)) := by
  obtain ⟨e1, e2, sid, e3, cc, scp, pce, sr, ar, spe, cs, caf, cof, ke⟩ := env
  simp only [reachesWait, reachesAuth, Bool.and_eq_true, Option.isNone_iff_eq_none] at h
  obtain ⟨⟨⟨⟨⟨⟨⟨h1, h2⟩, h3⟩, h4⟩, h5⟩, h6⟩, h7⟩, h8⟩ := h
  subst h1; subst h2; subst h3; subst h6; subst h8
  simp only at hk
  subst hk
  cases cc with
  | error e => simp [isOkB] at h4
  | ok ccv =>
  cases scp with
  | error e => simp [isOkB] at h5
  | ok scv =>
  cases sr with
  | error e => simp [isOkB] at h7
  | ok pid =>
  simp only at hpath
  rcases hpath with ⟨hc, hf⟩ | ⟨hc, hf⟩ <;> subst hc <;> subst hf <;> rfl

/-- Witness for C4 amended at a concrete completed run with a failing
kill. -/
theorem c4_kill_error_fatal_witness :
    reachesWait envCompletedKillFails = true ∧
    envCompletedKillFails.killErr = some "process already exited" ∧
    (envCompletedKillFails.ctxSupplied = false ∧
      envCompletedKillFails.completionFires = true) ∧
    (runSession envCompletedKillFails).2 =
      RunOutcome.returns (some (RunError.killRunner "process already exited")) :=
  ⟨by decide, by decide, ⟨by decide, by decide⟩,
    c4_kill_error_fatal envCompletedKillFails "process already exited" (by decide)
      (by decide) (Or.inr ⟨by decide, by decide⟩)⟩

/-! ## C5: the authorization step -/

/-- C5: in every run that reaches the authorization step, the fixed
one-second delay immediately precedes the authorization invocation, the
pipeline continues to the test-plan start regardless of the authorization
outcome, and the authorization outcome (success flag and error) has no
effect whatsoever on the run's trace or result. -/
theorem c5_authorization_nonfatal (env : RunEnv) (h : reachesAuth env = true) :
    sleepPrecedesAuth (runSession env).1 = true ∧
    containsStartPlan (runSession env).1 = true ∧
    ∀ p : Bool × Option String, runSession { env with authorizeReply := p } = runSession env := by
  obtain ⟨e1, e2, sid, e3, cc, scp, pce, sr, ar, spe, cs, caf, cof, ke⟩ := env
  simp only [reachesAuth, Bool.and_eq_true, Option.isNone_iff_eq_none] at h
  obtain ⟨⟨⟨⟨⟨⟨h1, h2⟩, h3⟩, h4⟩, h5⟩, h6⟩, h7⟩ := h
  subst h1; subst h2; subst h3; subst h6
  cases cc with
  | error e => simp [isOkB] at h4
  | ok ccv =>
  cases scp with
  | error e => simp [isOkB] at h5
  | ok scv =>
  cases sr with
  | error e => simp [isOkB] at h7
  | ok pid =>
  cases spe <;> cases cs <;> cases caf <;> cases cof <;> cases ke <;>
    exact ⟨rfl, rfl, fun p => rfl⟩

/-- Witness for C5 at the happy-path run, with a failing authorization
substituted to show it changes nothing. -/
theorem c5_authorization_nonfatal_witness :
    reachesAuth happyEnv = true ∧
    sleepPrecedesAuth (runSession happyEnv).1 = true ∧
    containsStartPlan (runSession happyEnv).1 = true ∧
    runSession { happyEnv with authorizeReply := (false, some "authorization failed") } =
      runSession happyEnv :=
  ⟨by decide, (c5_authorization_nonfatal happyEnv (by decide)).1,
    (c5_authorization_nonfatal happyEnv (by decide)).2.1,
    (c5_authorization_nonfatal happyEnv (by decide)).2.2 (false, some "authorization failed")⟩

/-! ## C6: the session token -/

/-- C6 counterexample: two runs whose primary-channel capability
negotiations return identical results pass different tokens to the
session-establishing call on the secondary channel — the token is the
setup-generated session identifier, not a product of the primary
negotiation. -/
theorem c6_counterexample :
    happyEnv.controlCaps = envOtherToken.controlCaps ∧
    tokenPassed (runSession happyEnv).1 = some happyEnv.testSessionId ∧
    tokenPassed (runSession envOtherToken).1 = some envOtherToken.testSessionId ∧
    tokenPassed (runSession happyEnv).1 ≠ tokenPassed (runSession envOtherToken).1 := by
  decide

/-- C6 amended: the named test session is established on the secondary
channel using the session token generated by the test-config setup step
(which precedes both negotiations); the primary channel's negotiation
returns only a capability set. -/
theorem c6_token_from_setup (env : RunEnv)
    (h1 : env.connErr = none) (h2 : env.setupErr = none) (h3 : env.conn2Err = none)
    (h4 : isOkB env.controlCaps = true) :
    tokenPassed (runSession env).1 = some env.testSessionId := by
  obtain ⟨e1, e2, sid, e3, cc, scp, pce, sr, ar, spe, cs, caf, cof, ke⟩ := env
  simp only at h1 h2 h3
  subst h1; subst h2; subst h3
  cases cc with
  | error e => simp [isOkB] at h4
  | ok ccv =>
  cases scp <;> cases pce <;> cases sr <;> cases spe <;> cases cs <;> cases caf <;>
    cases cof <;> cases ke <;> rfl

/-- Witness for C6 amended at the happy-path run. -/
theorem c6_token_from_setup_witness :
    (happyEnv.connErr = none ∧ happyEnv.setupErr = none ∧ happyEnv.conn2Err = none ∧
      isOkB happyEnv.controlCaps = true) ∧
    tokenPassed (runSession happyEnv).1 = some happyEnv.testSessionId :=
  ⟨⟨rfl, rfl, rfl, rfl⟩, c6_token_from_setup happyEnv rfl rfl rfl rfl⟩

end GoIos
